import Mathlib

/-!
Verification of the diff-rendering and review-annotation engine of a
Gerrit command-line client.

Part 1 embeds `_convert_gerrit_diff_to_unified` from
`src/gerrit_cli/formatters/table.py`: the diff segment normalizer that turns
the server's structured diff (`{"ab": ...}`, `{"a": ...}`, `{"b": ...}`,
`{"a": ..., "b": ...}`, `{"skip": n}` sections) into a context-windowed
unified diff.

Part 2 embeds the inline-comment location parsing and grouping loop of the
`review` command from `src/gerrit_cli/commands/review.py`.
-/

namespace GerritCli

/-- One section of the Gerrit diff payload, as consumed by
`_convert_gerrit_diff_to_unified`.  `context` is an `{"ab": [...]}` section,
`removed` an `{"a": [...]}` section, `added` a `{"b": [...]}` section,
`replace` a section with both `"a"` and `"b"` keys, and `skip` a
`{"skip": n}` section. -/
inductive DiffSegment where
  | context (lines : List String)
  | removed (lines : List String)
  | added (lines : List String)
  | replace (a_lines b_lines : List String)
  | skip (count : Nat)
deriving DecidableEq, Repr

/-- Output line of the normalizer.  In the source each constructor is
rendered as the string `" " ++ text`, `"-" ++ text`, `"+" ++ text`, and
`"@@ ... skipped n lines ... @@"` respectively. -/
inductive RLine where
  | context (text : String)
  | removed (text : String)
  | added (text : String)
  | marker (count : Nat)
deriving DecidableEq, Repr

/-- `_is_change_section`: a section is a change when it has an `"a"` or
`"b"` key, i.e. it is not pure context and not a skip. -/
def is_change_section : DiffSegment → Bool
  | .context _ => false
  | .skip _ => false
  | .removed _ => true
  | .added _ => true
  | .replace _ _ => true

/-- `_is_change_section` lifted to an optional neighbouring section: the
Python code guards the lookups `content_sections[i-1]` / `[i+1]` by
`i > 0` / `i < len - 1`, so a missing neighbour counts as no change. -/
def opt_is_change : Option DiffSegment → Bool
  | none => false
  | some s => is_change_section s

/-- Python's slice `l[-k:]`.  For `k > 0` it is the last `min k l.length`
elements; for `k = 0` it is `l[0:]`, i.e. the WHOLE list (this quirk of
`-0` is observable in the source at `context = 0`). -/
def py_slice_last (k : Nat) (l : List String) : List String :=
  if k = 0 then l else l.drop (l.length - k)

/-- The `"ab" in section` branch of `_convert_gerrit_diff_to_unified`:
window a context run according to whether it sits before and/or after a
change section.  `is_before_change` means the NEXT section is a change,
`is_after_change` means the PREVIOUS section is a change, exactly as in the
source. -/
def render_ab_section (context : Nat) (is_before_change is_after_change : Bool)
    (ab_lines : List String) : List RLine :=
  let total_lines := ab_lines.length
  if is_before_change && is_after_change then
    if total_lines > context * 2 then
      ((ab_lines.take context).map RLine.context) ++
        (RLine.marker (total_lines - context * 2) ::
          ((py_slice_last context ab_lines).map RLine.context))
    else
      ab_lines.map RLine.context
  else if is_before_change then
    if total_lines > context then
      RLine.marker (total_lines - context) ::
        ((py_slice_last context ab_lines).map RLine.context)
    else
      ab_lines.map RLine.context
  else if is_after_change then
    if total_lines > context then
      ((ab_lines.take context).map RLine.context) ++
        [RLine.marker (total_lines - context)]
    else
      ab_lines.map RLine.context
  else
    if total_lines > context * 2 then
      [RLine.marker total_lines]
    else
      ab_lines.map RLine.context

/-- The body of the `for i, section in enumerate(content_sections)` loop for
one section, given the neighbouring sections. -/
def render_section (context : Nat) (prev next : Option DiffSegment) :
    DiffSegment → List RLine
  | .context ab_lines =>
      render_ab_section context (opt_is_change next) (opt_is_change prev) ab_lines
  | .skip count => [RLine.marker count]
  | .replace a_lines b_lines =>
      (a_lines.map RLine.removed) ++ (b_lines.map RLine.added)
  | .removed a_lines => a_lines.map RLine.removed
  | .added b_lines => b_lines.map RLine.added

/-- The loop of `_convert_gerrit_diff_to_unified`: walk the sections keeping
the previous section at hand; the next section is the head of the rest. -/
def normalize_go (context : Nat) (prev : Option DiffSegment) :
    List DiffSegment → List RLine
  | [] => []
  | s :: rest =>
      render_section context prev rest.head? s ++ normalize_go context (some s) rest

/-- `_convert_gerrit_diff_to_unified(gerrit_diff, context)`, producing the
ordered list of rendered lines. -/
def convert_gerrit_diff_to_unified (gerrit_diff : List DiffSegment)
    (context : Nat) : List RLine :=
  normalize_go context none gerrit_diff

/-- Text form of one rendered line, as produced by the source's
`lines.append(...)` calls. -/
def render_line : RLine → String
  | .context text => " " ++ text
  | .removed text => "-" ++ text
  | .added text => "+" ++ text
  | .marker count => "@@ ... skipped " ++ toString count ++ " lines ... @@"

/-- `CommentRange` from `client/models.py` (the four fields the review
command fills in). -/
structure CommentRange where
  start_line : Nat
  start_character : Nat
  end_line : Nat
  end_character : Nat
deriving DecidableEq, Repr

/-- Result of parsing one location suffix in the `review` command: the
local variables `line` and `comment_range` at the point where
`CommentInput` is built. -/
structure LocationSpec where
  line : Nat
  range : Option CommentRange
deriving DecidableEq, Repr

/-- The fields of `CommentInput` that the `review` command sets
(`CommentInput(line=line, message=m, range=comment_range)`); the remaining
model fields keep their defaults and play no role here. -/
structure CommentInput where
  line : Nat
  message : String
  range : Option CommentRange
deriving DecidableEq, Repr

/-- The two `sys.exit(1)` error sites of the location-parsing block:
`Invalid line format ...` (the `start-end` branch) and
`Invalid line number ...` (the single-line branch). -/
inductive LocParseError where
  | invalid_line_format (l_raw : String)
  | invalid_line_number (l_raw : String)
deriving DecidableEq, Repr

/-- The error sites of the whole inline-comment loop: the missing-`#`
check (`Invalid inline comment format ...`) and the location errors. -/
inductive ReviewError where
  | invalid_comment_format (location_spec : String)
  | loc_error (e : LocParseError)
deriving DecidableEq, Repr

/-- Numeric value of a digit string (most significant digit first). -/
def digits_val (ds : List Char) : Nat :=
  ds.foldl (fun acc c => acc * 10 + (c.toNat - 48)) 0

/-- Python's `int(s)` restricted to the shapes reachable here: an optional
leading `+` followed by a nonempty run of decimal digits.  (Python's `int`
also strips surrounding whitespace and accepts `_` digit separators and a
leading `-`; a `-` never reaches an `int` call in the source because any
string containing `-` is routed to the range branch first, and the other
relaxations are not exercised by the behaviour under study.) -/
def py_int_nat (s : List Char) : Option Nat :=
  let ds := if s.head? = some '+' then s.tail else s
  if ds ≠ [] ∧ ds.all Char.isDigit = true then some (digits_val ds) else none

/-- Read one maximal nonempty digit run (the regex atom `\d+`), returning
its value and the remaining characters. -/
def read_digits (cs : List Char) : Option (Nat × List Char) :=
  let ds := cs.takeWhile Char.isDigit
  if ds.isEmpty then none else some (digits_val ds, cs.dropWhile Char.isDigit)

/-- Read `L<digits>C<digits>` (letters case-insensitive), the repeated half
of the character-range regex. -/
def read_line_col (cs : List Char) : Option (Nat × Nat × List Char) :=
  match cs with
  | [] => none
  | c :: rest =>
    if c = 'L' ∨ c = 'l' then
      match read_digits rest with
      | none => none
      | some (ln, r1) =>
        match r1 with
        | [] => none
        | c2 :: r2 =>
          if c2 = 'C' ∨ c2 = 'c' then
            match read_digits r2 with
            | none => none
            | some (col, r3) => some (ln, col, r3)
          else none
    else none

/-- The anchored, case-insensitive regex
`^L(\d+)C(\d+)-L(\d+)C(\d+)$` of the review command, as a recognizer
returning the four captured integers.  (`re.match` with `$` would also
tolerate one trailing newline; that quirk is not modelled.) -/
def char_range_match (l_raw : String) : Option (Nat × Nat × Nat × Nat) :=
  match read_line_col l_raw.data with
  | none => none
  | some (sl, sc, r1) =>
    match r1 with
    | '-' :: r2 =>
      match read_line_col r2 with
      | none => none
      | some (el, ec, r3) => if r3.isEmpty then some (sl, sc, el, ec) else none
    | _ => none

/-- Python's `s.split(sep)` for a single-character separator. -/
def split_on_char (sep : Char) : List Char → List (List Char)
  | [] => [[]]
  | c :: cs =>
    if c = sep then [] :: split_on_char sep cs
    else
      match split_on_char sep cs with
      | [] => [[c]]
      | p :: ps => (c :: p) :: ps

/-- The location-parsing block of the `review` command (lines 97-133 of
`commands/review.py`): try the character-range regex, then the
`start-end` split (entered whenever the string contains `-`; the Python
`start, end = map(int, l_raw.split("-"))` raises `ValueError`, caught as
`invalid_line_format`, unless the split yields exactly two int-parsable
parts), then a plain `int`. -/
def parse_location (l_raw : String) : Except LocParseError LocationSpec :=
  match char_range_match l_raw with
  | some (start_line, start_char, end_line, end_char) =>
    Except.ok ⟨end_line, some ⟨start_line, start_char, end_line, end_char⟩⟩
  | none =>
    if '-' ∈ l_raw.data then
      match (split_on_char '-' l_raw.data).map py_int_nat with
      | [some s, some e] => Except.ok ⟨e, some ⟨s, 0, e, 10000⟩⟩
      | _ => Except.error (LocParseError.invalid_line_format l_raw)
    else
      match py_int_nat l_raw.data with
      | some line => Except.ok ⟨line, none⟩
      | none => Except.error (LocParseError.invalid_line_number l_raw)

/-- Python's `location_spec.rsplit("#", 1)` under the guarantee that a `#`
is present: split at the LAST `#`. -/
def rsplit_hash (location_spec : String) : String × String :=
  let rev := location_spec.data.reverse
  (⟨((rev.dropWhile (fun c => c ≠ '#')).drop 1).reverse⟩,
   ⟨(rev.takeWhile (fun c => c ≠ '#')).reverse⟩)

/-- The `comments[f].append(...)` update on the insertion-ordered
`comments` dict, modelled as an association list: a new file key goes to
the end, an existing key gets the comment appended to its list. -/
def add_comment (comments : List (String × List CommentInput)) (f : String)
    (c : CommentInput) : List (String × List CommentInput) :=
  match comments with
  | [] => [(f, [c])]
  | (k, v) :: rest =>
    if k = f then (k, v ++ [c]) :: rest
    else (k, v) :: add_comment rest f c

/-- The `for location_spec, m in inline_comment` loop of the `review`
command: reject a token without `#`, split at the last `#`, parse the
location, and append the resulting `CommentInput` under the file key.
Any failure aborts the whole loop (`sys.exit(1)`). -/
def build_comments_go : List (String × String) → List (String × List CommentInput) →
    Except ReviewError (List (String × List CommentInput))
  | [], comments => Except.ok comments
  | (location_spec, m) :: rest, comments =>
    if '#' ∈ location_spec.data then
      match parse_location (rsplit_hash location_spec).2 with
      | Except.error e => Except.error (ReviewError.loc_error e)
      | Except.ok spec =>
        build_comments_go rest
          (add_comment comments (rsplit_hash location_spec).1 ⟨spec.line, m, spec.range⟩)
    else
      Except.error (ReviewError.invalid_comment_format location_spec)

/-- The whole inline-comment processing pass, starting from the empty
`comments` dict. -/
def build_comments (inline_comment : List (String × String)) :
    Except ReviewError (List (String × List CommentInput)) :=
  build_comments_go inline_comment []

/-- Whether an `Except` is an error. -/
def is_error {ε α : Type} : Except ε α → Bool
  | Except.error _ => true
  | Except.ok _ => false

/-- Whether one raw `--inline-comment` token is malformed: it lacks a `#`,
or its location suffix parses with an error. -/
def malformed_token (t : String × String) : Bool :=
  if '#' ∈ t.1.data then is_error (parse_location (rsplit_hash t.1).2) else true

/-- The payload handed to the review-submission call: the `comments`
mapping when the loop completes, and nothing at all when any token fails
(the command exits before `client.set_review` is reached). -/
def review_payload (inline_comment : List (String × String)) :
    Option (List (String × List CommentInput)) :=
  match build_comments inline_comment with
  | Except.ok comments => some comments
  | Except.error _ => none

/-- C6: every `Added`, `Removed`, or `Replace` segment renders in full — one
output line per input line — and a `Replace` renders all removed lines
before all added lines, never interleaved; in particular
removed=["x"], added=["y"] renders as [Removed "x", Added "y"]. -/
theorem c6_change_segments_render_in_full :
    (∀ (context : Nat) (prev next : Option DiffSegment) (a_lines b_lines : List String),
      render_section context prev next (DiffSegment.replace a_lines b_lines) =
        (a_lines.map RLine.removed) ++ (b_lines.map RLine.added)) ∧
    (∀ (context : Nat) (prev next : Option DiffSegment) (a_lines : List String),
      render_section context prev next (DiffSegment.removed a_lines) =
        a_lines.map RLine.removed) ∧
    (∀ (context : Nat) (prev next : Option DiffSegment) (b_lines : List String),
      render_section context prev next (DiffSegment.added b_lines) =
        b_lines.map RLine.added) ∧
    (∀ (context : Nat) (prev next : Option DiffSegment) (a_lines b_lines : List String),
      (render_section context prev next (DiffSegment.replace a_lines b_lines)).length =
        a_lines.length + b_lines.length) ∧
    (∀ (context : Nat) (prev next : Option DiffSegment) (a_lines : List String),
      (render_section context prev next (DiffSegment.removed a_lines)).length =
        a_lines.length) ∧
    (∀ (context : Nat) (prev next : Option DiffSegment) (b_lines : List String),
      (render_section context prev next (DiffSegment.added b_lines)).length =
        b_lines.length) ∧
    render_section 5 (some (DiffSegment.context ["k"])) (some (DiffSegment.context ["k"]))
      (DiffSegment.replace ["x"] ["y"]) = [RLine.removed "x", RLine.added "y"] := by
  refine ⟨fun _ _ _ _ _ => rfl, fun _ _ _ _ => rfl, fun _ _ _ _ => rfl, ?_, ?_, ?_, rfl⟩
  · intro context prev next a_lines b_lines
    simp [render_section]
  · intro context prev next a_lines
    simp [render_section]
  · intro context prev next b_lines
    simp [render_section]

/-- C2 (the code diverges): the claim predicts that with context window 0 a
context run adjacent to a change keeps zero lines and becomes a single
marker; the code's `ab_lines[-0:]` slice instead re-emits the WHOLE run
after the marker in the "before a change" (and "between") branches, so the
marker announces skipped lines that are then displayed anyway. -/
theorem c2_zero_context_window_bug :
    convert_gerrit_diff_to_unified [DiffSegment.context ["c"], DiffSegment.added ["y"]] 0 =
      [RLine.marker 1, RLine.context "c", RLine.added "y"] ∧
    convert_gerrit_diff_to_unified [DiffSegment.context ["c"], DiffSegment.added ["y"]] 0 ≠
      [RLine.marker 1, RLine.added "y"] :=
  ⟨rfl, by decide⟩

/-- C1 counterexample: at window size N = 0 a one-line context run between
two changes has length 1 > 2N, but the output is NOT (first 0 lines,
marker 1, last 0 lines): the `ab_lines[-0:]` slice re-emits the whole run
after the marker. -/
theorem c1_counterexample :
    convert_gerrit_diff_to_unified
        [DiffSegment.removed ["x"], DiffSegment.context ["c"], DiffSegment.added ["y"]] 0 ≠
      [RLine.removed "x", RLine.marker 1, RLine.added "y"] ∧
    convert_gerrit_diff_to_unified
        [DiffSegment.removed ["x"], DiffSegment.context ["c"], DiffSegment.added ["y"]] 0 =
      [RLine.removed "x", RLine.marker 1, RLine.context "c", RLine.added "y"] :=
  ⟨by decide, rfl⟩

/-- C1 (amended to window sizes N ≥ 1): a context run between two change
segments is rendered as the first N lines, one marker for length − 2N, and
the last N lines when its length exceeds 2N, and in full with no marker
otherwise; in particular a 12-line run between two Replace segments with
N = 5 yields 5 lines, marker 2, 5 lines. -/
theorem c1_between_windowing :
    (∀ (context : Nat), 1 ≤ context → ∀ (prev next : DiffSegment),
      is_change_section prev = true → is_change_section next = true →
      ∀ (ab_lines : List String),
      render_section context (some prev) (some next) (DiffSegment.context ab_lines) =
        if ab_lines.length > context * 2 then
          ((ab_lines.take context).map RLine.context) ++
            (RLine.marker (ab_lines.length - context * 2) ::
              ((ab_lines.drop (ab_lines.length - context)).map RLine.context))
        else ab_lines.map RLine.context) ∧
    convert_gerrit_diff_to_unified
        [DiffSegment.replace ["o"] ["n"],
         DiffSegment.context
           ["c1", "c2", "c3", "c4", "c5", "c6", "c7", "c8", "c9", "c10", "c11", "c12"],
         DiffSegment.replace ["o2"] ["n2"]] 5 =
      [RLine.removed "o", RLine.added "n",
       RLine.context "c1", RLine.context "c2", RLine.context "c3", RLine.context "c4",
       RLine.context "c5", RLine.marker 2,
       RLine.context "c8", RLine.context "c9", RLine.context "c10", RLine.context "c11",
       RLine.context "c12", RLine.removed "o2", RLine.added "n2"] := by
  constructor
  · intro context hc prev next hp hn ab_lines
    have h0 : context ≠ 0 := by omega
    simp [render_section, opt_is_change, hp, hn, render_ab_section, py_slice_last, h0]
  · rfl

/-- C1 witness: the general between-case statement instantiated at N = 5
with a 12-line run between two Replace segments. -/
theorem c1_between_windowing_witness :
    render_section 5 (some (DiffSegment.replace ["o"] ["n"]))
        (some (DiffSegment.replace ["o2"] ["n2"]))
        (DiffSegment.context
          ["c1", "c2", "c3", "c4", "c5", "c6", "c7", "c8", "c9", "c10", "c11", "c12"]) =
      [RLine.context "c1", RLine.context "c2", RLine.context "c3", RLine.context "c4",
       RLine.context "c5", RLine.marker 2,
       RLine.context "c8", RLine.context "c9", RLine.context "c10", RLine.context "c11",
       RLine.context "c12"] := by
  rw [c1_between_windowing.1 5 (by decide) (DiffSegment.replace ["o"] ["n"])
    (DiffSegment.replace ["o2"] ["n2"]) rfl rfl
    ["c1", "c2", "c3", "c4", "c5", "c6", "c7", "c8", "c9", "c10", "c11", "c12"]]
  rfl

/-- C3: a context run with no change segment on either side is collapsed to
a single marker carrying the FULL line count when its length exceeds 2N,
and rendered in full with no marker otherwise; in particular a lone 12-line
run with N = 5 becomes a single marker of 12, not a 5/skip/5 split. -/
theorem c3_isolated_context_full_collapse :
    (∀ (context : Nat) (prev next : Option DiffSegment),
      opt_is_change prev = false → opt_is_change next = false →
      ∀ (ab_lines : List String),
      render_section context prev next (DiffSegment.context ab_lines) =
        if ab_lines.length > context * 2 then [RLine.marker ab_lines.length]
        else ab_lines.map RLine.context) ∧
    convert_gerrit_diff_to_unified
        [DiffSegment.context
          ["c1", "c2", "c3", "c4", "c5", "c6", "c7", "c8", "c9", "c10", "c11", "c12"]] 5 =
      [RLine.marker 12] := by
  constructor
  · intro context prev next hp hn ab_lines
    simp [render_section, hp, hn, render_ab_section]
  · rfl

/-- Helper: `takeWhile (· ≠ sep)` stops exactly at the first `sep`. -/
theorem takeWhile_ne_append (sep : Char) (l1 l2 : List Char) (h : sep ∉ l1) :
    (l1 ++ sep :: l2).takeWhile (fun c => c ≠ sep) = l1 := by
  induction l1 with
  | nil => simp [List.takeWhile_cons]
  | cons c cs ih =>
    have hc : c ≠ sep := fun e => h (e ▸ List.mem_cons_self c cs)
    have hm : sep ∉ cs := fun hmm => h (List.mem_cons_of_mem _ hmm)
    have ih2 := ih hm
    simp only [ne_eq, decide_not] at ih2 ⊢
    simp [List.takeWhile_cons, hc, ih2]

/-- Helper: `dropWhile (· ≠ sep)` drops exactly up to the first `sep`. -/
theorem dropWhile_ne_append (sep : Char) (l1 l2 : List Char) (h : sep ∉ l1) :
    (l1 ++ sep :: l2).dropWhile (fun c => c ≠ sep) = sep :: l2 := by
  induction l1 with
  | nil => simp [List.dropWhile_cons]
  | cons c cs ih =>
    have hc : c ≠ sep := fun e => h (e ▸ List.mem_cons_self c cs)
    have hm : sep ∉ cs := fun hmm => h (List.mem_cons_of_mem _ hmm)
    have ih2 := ih hm
    simp only [ne_eq, decide_not] at ih2 ⊢
    simp [List.dropWhile_cons, hc, ih2]

/-- Helper: `rsplit_hash` with the let binding unfolded. -/
theorem rsplit_hash_data (location_spec : String) :
    rsplit_hash location_spec =
      (⟨((location_spec.data.reverse.dropWhile (fun c => c ≠ '#')).drop 1).reverse⟩,
       ⟨(location_spec.data.reverse.takeWhile (fun c => c ≠ '#')).reverse⟩) := rfl

/-- Helper: with no `#` in the suffix, `rsplit_hash` splits a
`file ++ "#" ++ location` token at that (last) `#`. -/
theorem rsplit_hash_append (f l : String) (h : '#' ∉ l.data) :
    rsplit_hash (f ++ "#" ++ l) = (f, l) := by
  obtain ⟨fd⟩ := f
  obtain ⟨ld⟩ := l
  have h2 : '#' ∉ ld := by simpa using h
  have hrev : '#' ∉ ld.reverse := by simpa using h2
  have hd : ((⟨fd⟩ : String) ++ "#" ++ (⟨ld⟩ : String)).data = fd ++ '#' :: ld := by
    simp [String.data_append]
  rw [rsplit_hash_data, hd]
  rw [show (fd ++ '#' :: ld).reverse = ld.reverse ++ '#' :: fd.reverse by simp]
  rw [takeWhile_ne_append '#' ld.reverse fd.reverse hrev,
    dropWhile_ne_append '#' ld.reverse fd.reverse hrev]
  simp

/-- Helper: `split_on_char` on a separator-free list is the singleton. -/
theorem split_on_char_not_mem (sep : Char) (l : List Char) (h : sep ∉ l) :
    split_on_char sep l = [l] := by
  induction l with
  | nil => rfl
  | cons c cs ih =>
    have hc : c ≠ sep := fun e => h (e ▸ List.mem_cons_self c cs)
    have hm : sep ∉ cs := fun hmm => h (List.mem_cons_of_mem _ hmm)
    simp [split_on_char, hc, ih hm]

/-- Helper: splitting peels off the first separator-free chunk. -/
theorem split_on_char_append (sep : Char) (l1 l2 : List Char) (h : sep ∉ l1) :
    split_on_char sep (l1 ++ sep :: l2) = l1 :: split_on_char sep l2 := by
  induction l1 with
  | nil => simp [split_on_char]
  | cons c cs ih =>
    have hc : c ≠ sep := fun e => h (e ▸ List.mem_cons_self c cs)
    have hm : sep ∉ cs := fun hmm => h (List.mem_cons_of_mem _ hmm)
    simp [split_on_char, hc, ih hm]

/-- Helper: `py_int_nat` accepts every nonempty digit string and returns
its value. -/
theorem py_int_nat_digits (ds : List Char) (h1 : ds ≠ [])
    (h2 : ds.all Char.isDigit = true) :
    py_int_nat ds = some (digits_val ds) := by
  have hhead : ¬ ds.head? = some '+' := by
    cases ds with
    | nil => simp
    | cons c cs =>
      have hc : c.isDigit = true := by
        simp [List.all_cons] at h2
        exact h2.1
      simp only [List.head?]
      intro he
      have hce : c = '+' := by injection he
      rw [hce] at hc
      exact absurd hc (by decide)
  unfold py_int_nat
  rw [if_neg hhead, if_pos ⟨h1, h2⟩]

/-- Helper: the character-range regex never matches a string starting with
a digit (the anchor requires `L`/`l`). -/
theorem char_range_match_digit_head (c : Char) (cs : List Char)
    (hc : c.isDigit = true) : char_range_match ⟨c :: cs⟩ = none := by
  have hL : ¬ (c = 'L' ∨ c = 'l') := by
    rintro (e | e) <;> rw [e] at hc <;> exact absurd hc (by decide)
  unfold char_range_match read_line_col
  simp [hL]

/-- C3 witness: the isolated-context statement instantiated at N = 5 with a
12-line run whose only neighbour is a skip section (not a change). -/
theorem c3_isolated_context_full_collapse_witness :
    render_section 5 none (some (DiffSegment.skip 3))
        (DiffSegment.context
          ["c1", "c2", "c3", "c4", "c5", "c6", "c7", "c8", "c9", "c10", "c11", "c12"]) =
      [RLine.marker 12] := by
  rw [c3_isolated_context_full_collapse.1 5 none (some (DiffSegment.skip 3)) rfl rfl
    ["c1", "c2", "c3", "c4", "c5", "c6", "c7", "c8", "c9", "c10", "c11", "c12"]]
  rfl

/-- C4: the location parser tries the character-range grammar first, then
the line-range grammar (whenever the string contains `-`), then the plain
integer grammar, first match winning; a string matching none of the three
fails with the invalid-format error.  Concretely, "10" gives line 10 with
no range, "10-20" gives line 20 with range (10, 0, 20, 10000),
"L12C13-L12C19" (letters case-insensitive) gives line 12 with range
(12, 13, 12, 19), and "abc" fails. -/
theorem c4_parser_priority_and_examples :
    (∀ (l_raw : String) (sl sc el ec : Nat),
      char_range_match l_raw = some (sl, sc, el, ec) →
      parse_location l_raw = Except.ok ⟨el, some ⟨sl, sc, el, ec⟩⟩) ∧
    (∀ (l_raw : String) (s e : Nat),
      char_range_match l_raw = none → '-' ∈ l_raw.data →
      (split_on_char '-' l_raw.data).map py_int_nat = [some s, some e] →
      parse_location l_raw = Except.ok ⟨e, some ⟨s, 0, e, 10000⟩⟩) ∧
    (∀ (l_raw : String),
      char_range_match l_raw = none → '-' ∈ l_raw.data →
      (∀ (s e : Nat), (split_on_char '-' l_raw.data).map py_int_nat ≠ [some s, some e]) →
      parse_location l_raw = Except.error (LocParseError.invalid_line_format l_raw)) ∧
    (∀ (l_raw : String),
      char_range_match l_raw = none → '-' ∉ l_raw.data →
      py_int_nat l_raw.data = none →
      parse_location l_raw = Except.error (LocParseError.invalid_line_number l_raw)) ∧
    parse_location "10" = Except.ok ⟨10, none⟩ ∧
    parse_location "10-20" = Except.ok ⟨20, some ⟨10, 0, 20, 10000⟩⟩ ∧
    parse_location "L12C13-L12C19" = Except.ok ⟨12, some ⟨12, 13, 12, 19⟩⟩ ∧
    parse_location "l12c13-l12c19" = Except.ok ⟨12, some ⟨12, 13, 12, 19⟩⟩ ∧
    parse_location "abc" = Except.error (LocParseError.invalid_line_number "abc") := by
  refine ⟨?_, ?_, ?_, ?_, by rfl, by rfl, by rfl, by rfl, by rfl⟩
  · intro l_raw sl sc el ec h
    simp [parse_location, h]
  · intro l_raw s e h1 h2 h3
    simp [parse_location, h1, h2, h3]
  · intro l_raw h1 h2 h3
    unfold parse_location
    rw [h1]
    rw [if_pos h2]
    generalize hm : (split_on_char '-' l_raw.data).map py_int_nat = xs
    rw [hm] at h3
    cases xs with
    | nil => rfl
    | cons o1 t =>
      cases o1 with
      | none => rfl
      | some a1 =>
        cases t with
        | nil => rfl
        | cons o2 t2 =>
          cases o2 with
          | none => rfl
          | some a2 =>
            cases t2 with
            | nil => exact absurd rfl (h3 a1 a2)
            | cons o3 t3 => rfl
  · intro l_raw h1 h2 h3
    simp [parse_location, h1, h2, h3]

/-- C4 witness: the priority statement instantiated at a concrete
character-range string. -/
theorem c4_parser_priority_and_examples_witness :
    parse_location "L1C2-L3C4" = Except.ok ⟨3, some ⟨1, 2, 3, 4⟩⟩ :=
  c4_parser_priority_and_examples.1 "L1C2-L3C4" 1 2 3 4 rfl

/-- C5: each raw inline-comment token is split at the LAST `#` into
(file, location) — "weird#path#10" yields file "weird#path" and location
"10" — and the builder groups comments by file preserving input order:
[("a.py#1","m1"), ("a.py#2","m2"), ("b.py#1","m3")] gives "a.py" two
comments in input order and "b.py" one. -/
theorem c5_last_hash_split_and_grouping :
    (∀ (f l : String), '#' ∉ l.data → rsplit_hash (f ++ "#" ++ l) = (f, l)) ∧
    rsplit_hash "weird#path#10" = ("weird#path", "10") ∧
    build_comments [("a.py#1", "m1"), ("a.py#2", "m2"), ("b.py#1", "m3")] =
      Except.ok [("a.py", [⟨1, "m1", none⟩, ⟨2, "m2", none⟩]),
        ("b.py", [⟨1, "m3", none⟩])] :=
  ⟨rsplit_hash_append, by rfl, by rfl⟩

/-- C5 witness: the last-`#` split applied to a concrete token whose
suffix has no `#`. -/
theorem c5_last_hash_split_and_grouping_witness :
    rsplit_hash ("src/a.py" ++ "#" ++ "10") = ("src/a.py", "10") :=
  c5_last_hash_split_and_grouping.1 "src/a.py" "10" (by decide)

/-- C7: a comment token with no `#` makes the loop fail with the
invalid-format error immediately, whatever the remaining tokens and the
comments accumulated so far — no location grammar is consulted for it. -/
theorem c7_missing_hash_rejected_before_location (location_spec m : String)
    (rest : List (String × String)) (comments : List (String × List CommentInput))
    (h : '#' ∉ location_spec.data) :
    build_comments_go ((location_spec, m) :: rest) comments =
      Except.error (ReviewError.invalid_comment_format location_spec) := by
  simp [build_comments_go, h]

/-- C7 witness: a `#`-less token is rejected even with a valid token
behind it. -/
theorem c7_missing_hash_rejected_before_location_witness :
    build_comments_go [("nohash", "msg"), ("a.py#1", "ok")] [] =
      Except.error (ReviewError.invalid_comment_format "nohash") :=
  c7_missing_hash_rejected_before_location "nohash" "msg" [("a.py#1", "ok")] []
    (by decide)

/-- C8: whenever the location parser succeeds and returns a range, the
anchor line equals the range's end line. -/
theorem c8_range_end_line_eq_line (l_raw : String) (spec : LocationSpec)
    (r : CommentRange) (h : parse_location l_raw = Except.ok spec)
    (hr : spec.range = some r) : r.end_line = spec.line := by
  unfold parse_location at h
  split at h
  · simp only [Except.ok.injEq] at h
    subst h
    simp only at hr
    injection hr with hr2
    rw [← hr2]
  · split at h
    · split at h
      · simp only [Except.ok.injEq] at h
        subst h
        simp only at hr
        injection hr with hr2
        rw [← hr2]
      · simp at h
    · split at h
      · simp only [Except.ok.injEq] at h
        subst h
        simp at hr
      · simp at h

/-- C8 witness: the invariant at the concrete parse of "10-20". -/
theorem c8_range_end_line_eq_line_witness :
    (CommentRange.mk 10 0 20 10000).end_line = 20 :=
  c8_range_end_line_eq_line "10-20" ⟨20, some ⟨10, 0, 20, 10000⟩⟩
    ⟨10, 0, 20, 10000⟩ rfl rfl

/-- C9: the parser does no numeric sanity checking beyond shape: every
`a-b` with nonempty digit strings a, b parses to line = value of b with
range (value of a, 0, value of b, 10000), even reversed ("20-10") or zero
("0-0"), and a reversed character range "L20C5-L10C1" parses with
line = 10. -/
theorem c9_no_numeric_sanity_validation :
    (∀ (a b : List Char), a ≠ [] → b ≠ [] →
      a.all Char.isDigit = true → b.all Char.isDigit = true →
      parse_location ⟨a ++ '-' :: b⟩ =
        Except.ok ⟨digits_val b, some ⟨digits_val a, 0, digits_val b, 10000⟩⟩) ∧
    parse_location "20-10" = Except.ok ⟨10, some ⟨20, 0, 10, 10000⟩⟩ ∧
    parse_location "0-0" = Except.ok ⟨0, some ⟨0, 0, 0, 10000⟩⟩ ∧
    parse_location "L20C5-L10C1" = Except.ok ⟨10, some ⟨20, 5, 10, 1⟩⟩ := by
  refine ⟨?_, by rfl, by rfl, by rfl⟩
  intro a b ha hb hda hdb
  obtain ⟨c, cs, rfl⟩ : ∃ c cs, a = c :: cs := by
    cases a with
    | nil => exact absurd rfl ha
    | cons c cs => exact ⟨c, cs, rfl⟩
  have hc : c.isDigit = true := by
    simp [List.all_cons] at hda
    exact hda.1
  have hdash : ¬ Char.isDigit '-' = true := by decide
  have hna : '-' ∉ c :: cs := by
    intro hm
    exact hdash (by simpa using List.all_eq_true.mp hda '-' (by simpa using hm))
  have hnb : '-' ∉ b := by
    intro hm
    exact hdash (List.all_eq_true.mp hdb '-' hm)
  have hcr : char_range_match ⟨(c :: cs) ++ '-' :: b⟩ = none :=
    char_range_match_digit_head c (cs ++ '-' :: b) hc
  have hmem : '-' ∈ (⟨(c :: cs) ++ '-' :: b⟩ : String).data := by
    simp
  have hsplit : split_on_char '-' ((c :: cs) ++ '-' :: b) =
      (c :: cs) :: split_on_char '-' b := split_on_char_append '-' (c :: cs) b hna
  have hsb : split_on_char '-' b = [b] := split_on_char_not_mem '-' b hnb
  have hpa : py_int_nat (c :: cs) = some (digits_val (c :: cs)) :=
    py_int_nat_digits (c :: cs) (by simp) hda
  have hpb : py_int_nat b = some (digits_val b) := py_int_nat_digits b hb hdb
  unfold parse_location
  rw [hcr, if_pos hmem]
  rw [show (⟨(c :: cs) ++ '-' :: b⟩ : String).data = (c :: cs) ++ '-' :: b from rfl]
  rw [hsplit, hsb]
  simp [hpa, hpb]

/-- C9 witness: the reversed line range "20-10" through the general
statement. -/
theorem c9_no_numeric_sanity_validation_witness :
    parse_location ⟨['2', '0'] ++ '-' :: ['1', '0']⟩ =
      Except.ok ⟨digits_val ['1', '0'],
        some ⟨digits_val ['2', '0'], 0, digits_val ['1', '0'], 10000⟩⟩ :=
  c9_no_numeric_sanity_validation.1 ['2', '0'] ['1', '0']
    (by decide) (by decide) (by decide) (by decide)

/-- Helper for C10: if any remaining token is malformed, the comment loop
ends in an error whatever has been accumulated so far. -/
theorem build_comments_go_error (tokens : List (String × String)) :
    ∀ (comments : List (String × List CommentInput)),
    (∃ t ∈ tokens, malformed_token t = true) →
    is_error (build_comments_go tokens comments) = true := by
  induction tokens with
  | nil =>
    intro comments h
    simp at h
  | cons hd tl ih =>
    intro comments h
    obtain ⟨loc, m⟩ := hd
    by_cases hsharp : '#' ∈ loc.data
    · unfold build_comments_go
      rw [if_pos hsharp]
      cases hp : parse_location (rsplit_hash loc).2 with
      | error e => rfl
      | ok spec =>
        obtain ⟨t, ht, hm⟩ := h
        rcases List.mem_cons.mp ht with rfl | h2
        · unfold malformed_token at hm
          rw [if_pos hsharp, hp] at hm
          simp [is_error] at hm
        · exact ih _ ⟨t, h2, hm⟩
    · unfold build_comments_go
      rw [if_neg hsharp]
      rfl

/-- C10: inline-comment processing is atomic with respect to submission —
if any token is malformed (no `#`, or an unparsable location), no review
payload at all reaches the submission call, including the comments of the
valid tokens. -/
theorem c10_atomic_submission (inline_comment : List (String × String))
    (h : ∃ t ∈ inline_comment, malformed_token t = true) :
    review_payload inline_comment = none := by
  have he := build_comments_go_error inline_comment [] h
  unfold review_payload build_comments
  cases hb : build_comments_go inline_comment [] with
  | ok c =>
    rw [hb] at he
    simp [is_error] at he
  | error e =>
    rfl

/-- C10 witness: one valid and one malformed token produce no payload. -/
theorem c10_atomic_submission_witness :
    review_payload [("a.py#1", "ok"), ("nohash", "m")] = none :=
  c10_atomic_submission [("a.py#1", "ok"), ("nohash", "m")] (by decide)

end GerritCli
